import Mathlib

/-!
Shallow embedding of the vote-casting and poll-lifecycle core of the
alx-polly polling application: the Postgres schema layer
(`supabase-schema.sql`: tables, the `unique_user_poll_vote` constraint,
the `is_poll_active` and `cast_vote` functions, the
`poll_options_with_stats` view), the `PollService` class
(fetch/create/update/delete/castVote), the validation module
(`app/lib/validation.ts`), the error taxonomy (`error-handler`), and the
`PATCH /api/polls/[id]` route handler's option-editing logic.

Identifiers (uuids) are modelled as `Nat`; a `nextId` counter in the
database state models fresh uuid generation.  Timestamps are `Nat`
(milliseconds); `now` is passed explicitly.  Store-level failures that
the service reacts to (the two inserts of `createPoll`, the option
insert of `updatePoll`) are injected through explicit `Bool` oracle
parameters; interpolated store error details in messages are omitted.
-/

/-- A field-scoped validation violation, as produced by the functions in
`app/lib/validation.ts`. -/
structure FieldError where
  field : String
  message : String
deriving DecidableEq, Repr

/-- A row of the `polls` table. -/
structure PollRow where
  id : Nat
  title : String
  description : Option String
  is_active : Bool
  created_by : Nat
  created_at : Nat
  expires_at : Option Nat
  updated_at : Nat
deriving DecidableEq, Repr

/-- A row of the `poll_options` table (the `order_index` column is the one
the service writes alongside `poll_id` and `text`). -/
structure OptionRow where
  id : Nat
  poll_id : Nat
  text : String
  order_index : Nat
deriving DecidableEq, Repr

/-- A row of the `votes` table, subject to the
`unique_user_poll_vote UNIQUE (user_id, poll_id)` constraint. -/
structure VoteRow where
  id : Nat
  poll_id : Nat
  option_id : Nat
  user_id : Nat
deriving DecidableEq, Repr

/-- The durable store: the three tables the core touches, plus a counter
producing fresh primary keys. -/
structure DB where
  polls : List PollRow
  options : List OptionRow
  votes : List VoteRow
  nextId : Nat
deriving DecidableEq, Repr

/-- The `CreatePollRequest` shape from `app/types`. -/
structure CreatePollRequest where
  title : String
  description : Option String
  options : List String
  expiresAt : Option Nat
deriving DecidableEq, Repr

/-- One entry of `EditPollFormData.options`. -/
structure EditOption where
  id : Nat
  text : String
deriving DecidableEq, Repr

/-- The `EditPollFormData` shape from `app/types`. -/
structure EditPollFormData where
  title : String
  description : Option String
  options : List EditOption
deriving DecidableEq, Repr

/-- The `ApiResponse` envelope of `error-handler`: `createSuccessResponse`
or `createErrorResponse` (message plus code; the `details` field is never
populated by the service paths modelled here, and timestamps are dropped). -/
inductive ApiResponse (α : Type) where
  | success (data : α)
  | failure (message code : String)
deriving DecidableEq, Repr

/-- The error code of a failure response, if any. -/
def ApiResponse.errCode {α : Type} : ApiResponse α → Option String
  | .failure _ c => some c
  | .success _ => none

/-- Whether the response is a success. -/
def ApiResponse.isSuccess {α : Type} : ApiResponse α → Bool
  | .success _ => true
  | .failure _ _ => false

/-- The exception values that can cross a `PollService` method body, mirroring
the JavaScript class hierarchy: `AuthError` (auth-utils, extends `Error`),
the `ValidationError` of validation.ts (extends `Error`), the built-in
`ReferenceError` raised when an identifier is not in scope (extends `Error`),
and `PollOperationError` of error-handler together with its subclass
`AuthenticationError` (whose `code` is always the string
AUTHENTICATION_ERROR). -/
inductive Thrown where
  | authError (message code : String)
  | validationFailed (errors : List FieldError)
  | referenceError (message : String)
  | pollOperationError (message code : String)
  | authenticationError (message : String)
deriving DecidableEq, Repr

/-- The catch block shared by every `PollService` method: an
`instanceof AuthenticationError` branch, then an
`instanceof PollOperationError` branch, then a generic fallback with code
UNKNOWN_ERROR.  `AuthError` and validation.ts's `ValidationError` extend
only `Error`, so both fall through to the fallback. -/
def catchAll {α : Type} (fallback : String) : Thrown → ApiResponse α
  | .authenticationError m => .failure m "AUTHENTICATION_ERROR"
  | .pollOperationError m c => .failure m c
  | .authError _ _ => .failure fallback "UNKNOWN_ERROR"
  | .validationFailed _ => .failure fallback "UNKNOWN_ERROR"
  | .referenceError _ => .failure fallback "UNKNOWN_ERROR"

/-- `requireAuth` from auth-utils: resolves the credential or throws an
`AuthError` (not an `AuthenticationError`). -/
def requireAuth (auth : Option Nat) : Except Thrown Nat :=
  match auth with
  | some u => .ok u
  | none => .error (.authError "Authentication required" "AUTH_REQUIRED")

/-- JavaScript `String.prototype.trim()`: strip leading and trailing
whitespace (written over the character list so that it evaluates in the
kernel). -/
def jsTrim (s : String) : String :=
  ⟨((s.data.dropWhile Char.isWhitespace).reverse.dropWhile Char.isWhitespace).reverse⟩

/-- JavaScript `String.prototype.toLowerCase()` on the character list. -/
def jsToLower (s : String) : String := ⟨s.data.map Char.toLower⟩

/-- `validatePollTitle` from validation.ts. -/
def validatePollTitle (title : String) : List FieldError :=
  if title = "" ∨ (jsTrim title).length = 0 then
    [⟨"title", "Poll title is required"⟩]
  else if (jsTrim title).length < 3 then
    [⟨"title", "Poll title must be at least 3 characters long"⟩]
  else if (jsTrim title).length > 200 then
    [⟨"title", "Poll title must be less than 200 characters"⟩]
  else []

/-- `validatePollDescription` from validation.ts (a missing or empty
description is accepted). -/
def validatePollDescription (description : Option String) : List FieldError :=
  match description with
  | none => []
  | some d =>
    if d ≠ "" ∧ (jsTrim d).length > 1000 then
      [⟨"description", "Poll description must be less than 1000 characters"⟩]
    else []

/-- The per-option checks inside `validatePollOptions`, indexed as the
source's `forEach` is. -/
def validateEachOption (options : List String) : List FieldError :=
  (options.enum.map fun p =>
    if p.2 = "" ∨ (jsTrim p.2).length = 0 then
      [⟨"options[" ++ toString p.1 ++ "]", "Poll option cannot be empty"⟩]
    else if (jsTrim p.2).length > 100 then
      [⟨"options[" ++ toString p.1 ++ "]", "Poll option must be less than 100 characters"⟩]
    else []).flatten

/-- `validatePollOptions` from validation.ts: count bounds, per-option
checks, and a case-insensitive duplicate check via a case-folded set. -/
def validatePollOptions (options : List String) : List FieldError :=
  if options.length = 0 then
    [⟨"options", "At least one poll option is required"⟩]
  else if options.length < 2 then
    [⟨"options", "At least two poll options are required"⟩]
  else if options.length > 10 then
    [⟨"options", "Maximum 10 poll options allowed"⟩]
  else
    validateEachOption options ++
      (if ((options.map fun o => jsToLower (jsTrim o)).dedup).length ≠ options.length then
        [⟨"options", "Poll options must be unique"⟩]
      else [])

/-- The span `Date.setFullYear(getFullYear() + 1)` adds, modelled as a fixed
365-day year in milliseconds. -/
def oneYearMs : Nat := 31536000000

/-- `validateExpirationDate` from validation.ts: a supplied expiry must be
strictly in the future and at most one year ahead. -/
def validateExpirationDate (expiresAt : Option Nat) (now : Nat) : List FieldError :=
  match expiresAt with
  | none => []
  | some t =>
    if t ≤ now then
      [⟨"expiresAt", "Expiration date must be in the future"⟩]
    else if t > now + oneYearMs then
      [⟨"expiresAt", "Expiration date cannot be more than one year in the future"⟩]
    else []

/-- The violation list aggregated by `validateCreatePollRequest`. -/
def validateCreatePollRequestErrors (data : CreatePollRequest) (now : Nat) : List FieldError :=
  validatePollTitle data.title ++ validatePollDescription data.description ++
    validatePollOptions data.options ++ validateExpirationDate data.expiresAt now

/-- The violation list aggregated by `validateEditPollFormData`. -/
def validateEditPollFormDataErrors (data : EditPollFormData) : List FieldError :=
  validatePollTitle data.title ++ validatePollDescription data.description ++
    validatePollOptions (data.options.map (·.text))

/-- The SQL function `is_poll_active(poll_id)`: when the poll row is absent
the plpgsql `SELECT INTO` leaves both variables NULL and the function
returns NULL (modelled as `none`); otherwise it returns
`is_active AND (expires_at IS NULL OR expires_at > now())`. -/
def is_poll_active (db : DB) (now pid : Nat) : Option Bool :=
  match db.polls.find? (fun r => r.id == pid) with
  | none => none
  | some r =>
    some (r.is_active && (match r.expires_at with
      | none => true
      | some t => now < t))

/-- Outcome of the SQL `cast_vote` function: the returned vote id, or a
raised exception. -/
inductive CastVoteResult where
  | ok (voteId : Nat)
  | err (message : String)
deriving DecidableEq, Repr

/-- The UPDATE arm of `cast_vote`: set `option_id` on the row matching the
(user, poll) key, leave every other row alone. -/
def updVote (uid pid oid : Nat) (v : VoteRow) : VoteRow :=
  if v.user_id == uid && v.poll_id == pid then { v with option_id := oid } else v

/-- The SQL function `cast_vote(p_poll_id, p_option_id, p_user_id)`: raise
when `is_poll_active` is false (a NULL activity result skips the guard, and
the subsequent insert then fails its poll foreign key); insert the vote; on
`unique_violation` of `unique_user_poll_vote`, update the existing row's
`option_id` instead.  A raised exception rolls the transaction back, so
every error branch leaves the store unchanged.  Foreign keys on `poll_id`
and `option_id` are checked; the `profiles` foreign key on `user_id` is not
modelled. -/
def cast_vote (db : DB) (now pid oid uid : Nat) : CastVoteResult × DB :=
  if is_poll_active db now pid == some false then
    (.err "Poll is not active", db)
  else if (db.polls.find? (fun r => r.id == pid)).isNone then
    (.err "insert or update on table votes violates foreign key constraint votes_poll_id_fkey", db)
  else if (db.options.find? (fun o => o.id == oid)).isNone then
    (.err "insert or update on table votes violates foreign key constraint votes_option_id_fkey", db)
  else
    match db.votes.find? (fun v => v.user_id == uid && v.poll_id == pid) with
    | some existing =>
      (.ok existing.id, { db with votes := db.votes.map (updVote uid pid oid) })
    | none =>
      (.ok db.nextId,
        { db with votes := db.votes ++ [⟨db.nextId, pid, oid, uid⟩], nextId := db.nextId + 1 })

/-- One invocation of the SQL `cast_vote` function. -/
structure CastOp where
  now : Nat
  pollId : Nat
  optionId : Nat
  userId : Nat
deriving DecidableEq, Repr

/-- Apply a finite sequence of `cast_vote` calls to the store (each call is
atomic at the database, so any interleaving is some such sequence). -/
def applyCastVotes (ops : List CastOp) (db : DB) : DB :=
  ops.foldl (fun d op => (cast_vote d op.now op.pollId op.optionId op.userId).2) db

/-- Well-formedness of the `votes` table: the `unique_user_poll_vote`
constraint holds, primary keys are distinct, and all primary keys are below
the fresh-id counter. -/
def wfVotes (db : DB) : Prop :=
  (db.votes.map fun v => (v.user_id, v.poll_id)).Nodup ∧
  (db.votes.map (·.id)).Nodup ∧
  ∀ v ∈ db.votes, v.id < db.nextId

instance (db : DB) : Decidable (wfVotes db) := by
  unfold wfVotes; infer_instance

/-- Vote count of a single option, as counted by the
`poll_options_with_stats` view (`COUNT(v.id)` over the votes joined on the
option). -/
def optionVotes (db : DB) (oid : Nat) : Nat :=
  (db.votes.filter (fun v => v.option_id == oid)).length

/-- Total votes of a poll, as counted by the view's per-poll subquery
(`COUNT(*) FROM votes GROUP BY poll_id`). -/
def pollTotalVotes (db : DB) (pid : Nat) : Nat :=
  (db.votes.filter (fun v => v.poll_id == pid)).length

/-- Total votes of a poll as the `poll_details` view reports it:
`COUNT(DISTINCT v.id)` over the poll's vote rows. -/
def totalVotesDistinct (db : DB) (pid : Nat) : Nat :=
  (((db.votes.filter (fun v => v.poll_id == pid)).map (·.id)).dedup).length

/-- The number of distinct users holding a vote row on the poll. -/
def distinctVoters (db : DB) (pid : Nat) : Nat :=
  (((db.votes.filter (fun v => v.poll_id == pid)).map (·.user_id)).dedup).length

/-- Round a rational to one decimal place, as `ROUND(numeric, 1)` does for
the nonnegative values arising here (round half away from zero coincides
with round half up). -/
def roundTo1 (q : ℚ) : ℚ := (round (10 * q) : ℤ) / 10

/-- The `percentage` column of the `poll_options_with_stats` view: zero when
the poll's total vote count is zero (the LEFT JOIN yields NULL and the CASE
falls through), else `ROUND((votes / total) * 100, 1)`. -/
def optionPercentage (db : DB) (o : OptionRow) : ℚ :=
  let N := pollTotalVotes db o.poll_id
  let k := optionVotes db o.id
  if 0 < N then roundTo1 ((k : ℚ) / (N : ℚ) * 100) else 0

/-- The percentage as the specification sentence words it: 100·k/N rounded
to one decimal place (round half up, written with the floor) when the
poll's total vote count N is positive, and 0 when N is zero. -/
def specOptionPercentage (db : DB) (o : OptionRow) : ℚ :=
  let N := pollTotalVotes db o.poll_id
  let k := optionVotes db o.id
  if 0 < N then (⌊(100 * (k : ℚ) / (N : ℚ)) * 10 + 1 / 2⌋ : ℤ) / 10 else 0

/-- Insertion step used to order polls by `created_at` descending. -/
def insertByCreatedDesc (r : PollRow) : List PollRow → List PollRow
  | [] => [r]
  | q :: qs => if q.created_at ≤ r.created_at then r :: q :: qs else q :: insertByCreatedDesc r qs

/-- Order a poll list by `created_at` descending, as
`order('created_at', { ascending: false })` does. -/
def sortByCreatedDesc : List PollRow → List PollRow
  | [] => []
  | r :: rs => insertByCreatedDesc r (sortByCreatedDesc rs)

namespace PollService

/-- `PollService.fetchPolls`: select the polls with `is_active = true`,
ordered by creation time descending (a read; the store is unchanged). -/
def fetchPolls (db : DB) : ApiResponse (List PollRow) :=
  .success (sortByCreatedDesc (db.polls.filter (·.is_active)))

/-- `PollService.fetchPollById`: the `validatePollId` result is discarded by
the source; select the single row with this id and `is_active = true`; zero
rows surface as PGRST116, mapped to POLL_NOT_FOUND. -/
def fetchPollById (id : Nat) (db : DB) : ApiResponse PollRow :=
  match db.polls.find? (fun r => r.id == id && r.is_active) with
  | none => .failure "Poll not found" "POLL_NOT_FOUND"
  | some r => .success r

/-- Append the option rows `createPoll`/`updatePoll` build from the supplied
texts (trimmed, `order_index` = position), drawing fresh primary keys. -/
def insertOptionRows (db : DB) (pid : Nat) (texts : List String) : DB :=
  { db with
    options := db.options ++ (texts.enum.map fun p =>
      { id := db.nextId + p.1, poll_id := pid, text := jsTrim p.2, order_index := p.1 }),
    nextId := db.nextId + texts.length }

/-- The compensating rollback inside `createPoll`:
`from('polls').delete().eq('id', pid)`, with the store cascading to the
poll's options and votes. -/
def deletePollCascade (db : DB) (pid : Nat) : DB :=
  { db with
    polls := db.polls.filter (fun r => r.id != pid),
    options := db.options.filter (fun o => o.poll_id != pid),
    votes := db.votes.filter (fun v => v.poll_id != pid) }

/-- `PollService.createPoll`: requireAuth, `validateCreatePollRequest`
(throws on any violation), insert the poll row (active, trimmed fields),
insert the option rows, and on option failure delete the just-created poll
before surfacing CREATE_ERROR; finally the poll is re-fetched.
`pollInsertOk` and `optionsInsertOk` inject the store's verdict on the two
inserts. -/
def createPoll (auth : Option Nat) (now : Nat) (data : CreatePollRequest)
    (pollInsertOk optionsInsertOk : Bool) (db : DB) : ApiResponse PollRow × DB :=
  match requireAuth auth with
  | .error e => (catchAll "An unexpected error occurred while creating the poll" e, db)
  | .ok user =>
    let errs := validateCreatePollRequestErrors data now
    if ¬ errs.isEmpty then
      (catchAll "An unexpected error occurred while creating the poll" (.validationFailed errs), db)
    else if ¬ pollInsertOk then
      (catchAll "An unexpected error occurred while creating the poll"
        (.pollOperationError "Failed to create poll" "CREATE_ERROR"), db)
    else
      let pid := db.nextId
      let row : PollRow :=
        { id := pid, title := (jsTrim data.title), description := data.description.map jsTrim,
          is_active := true, created_by := user, created_at := now,
          expires_at := data.expiresAt, updated_at := now }
      let db1 : DB := { db with polls := db.polls ++ [row], nextId := db.nextId + 1 }
      if ¬ optionsInsertOk then
        let db2 := deletePollCascade db1 pid
        (catchAll "An unexpected error occurred while creating the poll"
          (.pollOperationError "Failed to create poll options" "CREATE_ERROR"), db2)
      else
        let db2 := insertOptionRows db1 pid data.options
        match fetchPollById pid db2 with
        | .success p => (.success p, db2)
        | .failure _ _ =>
          (catchAll "An unexpected error occurred while creating the poll"
            (.pollOperationError "Failed to retrieve created poll" "CREATE_ERROR"), db2)

/-- `PollService.updatePoll`: after `requireAuth` (and the discarded
`validatePollId`), the source calls `validateEditPollFormData(pollData)` —
but the module's import list (part_002 line 4) never imports that
identifier, so the call raises a `ReferenceError`.  Being neither an
`AuthenticationError` nor a `PollOperationError`, it falls through to the
generic catch: every authenticated call answers UNKNOWN_ERROR with zero
store writes, never reaching the ownership check or the option-replacement
writes that the dead code below line 166 describes. -/
def updatePoll (auth : Option Nat) (_now _id : Nat) (_data : EditPollFormData)
    (_optionsInsertOk : Bool) (db : DB) : ApiResponse PollRow × DB :=
  match requireAuth auth with
  | .error e => (catchAll "An unexpected error occurred while updating the poll" e, db)
  | .ok _ =>
    (catchAll "An unexpected error occurred while updating the poll"
      (.referenceError "validateEditPollFormData is not defined"), db)

/-- `PollService.deletePoll`: requireAuth, discard `validatePollId`, fetch
the active poll (else POLL_NOT_FOUND), reject a non-owner with
PERMISSION_DENIED, then soft-delete by setting `is_active` to false and
touching `updated_at`. -/
def deletePoll (auth : Option Nat) (now id : Nat) (db : DB) : ApiResponse Bool × DB :=
  match requireAuth auth with
  | .error e => (catchAll "An unexpected error occurred while deleting the poll" e, db)
  | .ok user =>
    match db.polls.find? (fun r => r.id == id && r.is_active) with
    | none =>
      (catchAll "An unexpected error occurred while deleting the poll"
        (.pollOperationError "Poll not found" "POLL_NOT_FOUND"), db)
    | some existingPoll =>
      if existingPoll.created_by != user then
        (catchAll "An unexpected error occurred while deleting the poll"
          (.pollOperationError "You do not have permission to delete this poll" "PERMISSION_DENIED"), db)
      else
        (.success true,
          { db with polls := db.polls.map fun r =>
              if r.id == id then { r with is_active := false, updated_at := now } else r })

/-- `PollService.castVote`: requireAuth, discard the two id validations,
fetch the poll filtered to `is_active = true` (absent or inactive rows both
surface as POLL_NOT_FOUND), reject with POLL_EXPIRED when `expires_at` is
set and strictly before now, reject an option not belonging to the poll
with INVALID_OPTION, reject an existing vote of this user on this poll with
ALREADY_VOTED, insert the vote, and re-fetch the poll. -/
def castVote (auth : Option Nat) (now pollId optionId : Nat) (db : DB) :
    ApiResponse PollRow × DB :=
  match requireAuth auth with
  | .error e => (catchAll "An unexpected error occurred while casting your vote" e, db)
  | .ok user =>
    match db.polls.find? (fun r => r.id == pollId && r.is_active) with
    | none =>
      (catchAll "An unexpected error occurred while casting your vote"
        (.pollOperationError "Poll not found" "POLL_NOT_FOUND"), db)
    | some poll =>
      if (match poll.expires_at with | some t => decide (t < now) | none => false : Bool) then
        (catchAll "An unexpected error occurred while casting your vote"
          (.pollOperationError "This poll has expired" "POLL_EXPIRED"), db)
      else
        match db.options.find? (fun o => o.id == optionId && o.poll_id == pollId) with
        | none =>
          (catchAll "An unexpected error occurred while casting your vote"
            (.pollOperationError "Invalid poll option" "INVALID_OPTION"), db)
        | some _ =>
          match db.votes.find? (fun v => v.poll_id == pollId && v.user_id == user) with
          | some _ =>
            (catchAll "An unexpected error occurred while casting your vote"
              (.pollOperationError "You have already voted on this poll" "ALREADY_VOTED"), db)
          | none =>
            let db1 : DB := { db with
              votes := db.votes ++ [⟨db.nextId, pollId, optionId, user⟩],
              nextId := db.nextId + 1 }
            match fetchPollById pollId db1 with
            | .success p => (.success p, db1)
            | .failure _ _ =>
              (catchAll "An unexpected error occurred while casting your vote"
                (.pollOperationError "Failed to retrieve updated poll data" "VOTE_ERROR"), db1)

end PollService

/-- One entry of the PATCH route's `body.options`: the source discriminates
an id starting with the text new- (an option to insert) from a real id (an
option to update), modelled as the `newOption` flag. -/
structure PatchOption where
  newOption : Bool
  id : Nat
  text : String
deriving DecidableEq, Repr

/-- The body accepted by `PATCH /api/polls/[id]`: each field is applied only
when present (and `title` only when non-empty, matching the truthiness
check); `expiresAt` may carry an explicit null (`some none`). -/
structure PatchBody where
  isActive : Option Bool
  title : Option String
  description : Option String
  expiresAt : Option (Option Nat)
  options : Option (List PatchOption)
deriving DecidableEq, Repr

/-- Outcome of the PATCH handler, by HTTP status. -/
inductive PatchResponse where
  | unauthorized
  | notFound
  | forbidden
  | ok
deriving DecidableEq, Repr

/-- The `updateData` assembly of the PATCH handler applied to the poll row
(`updated_at` is refreshed by the `update_polls_updated_at` trigger). -/
def applyPatchUpdateData (body : PatchBody) (now : Nat) (r : PollRow) : PollRow :=
  let r1 := match body.isActive with
    | some b => { r with is_active := b }
    | none => r
  let r2 := match body.title with
    | some t => if t != "" then { r1 with title := t } else r1
    | none => r1
  let r3 := match body.description with
    | some d => { r2 with description := some d }
    | none => r2
  let r4 := match body.expiresAt with
    | some e => { r3 with expires_at := e }
    | none => r3
  { r4 with updated_at := now }

/-- The first options pass of the PATCH handler: insert each new option
(untrimmed text, fresh id), update the text of each existing option matched
by id and poll. -/
def patchApplyOption (pollId : Nat) (db : DB) (o : PatchOption) : DB :=
  if o.newOption then
    { db with
      options := db.options ++ [{ id := db.nextId, poll_id := pollId, text := o.text, order_index := 0 }],
      nextId := db.nextId + 1 }
  else
    { db with options := db.options.map fun r =>
        if r.id == o.id && r.poll_id == pollId then { r with text := o.text } else r }

/-- One step of the PATCH handler's removal loop: count the votes referencing
the option and delete it only when that count is zero (the store cascade on
`votes.option_id` then has nothing to remove). -/
def patchDeleteIfNoVotes (pollId : Nat) (db : DB) (oid : Nat) : DB :=
  if (db.votes.filter (fun v => v.option_id == oid)).length == 0 then
    { db with
      options := db.options.filter (fun r => !(r.id == oid && r.poll_id == pollId)),
      votes := db.votes.filter (fun v => v.option_id != oid) }
  else db

/-- The `PATCH /api/polls/[id]` handler: authenticate, fetch the poll by id
alone, reject a non-owner with 403, apply the field updates, then when an
options array is supplied insert/update each entry, and delete the options
absent from the request only when their vote count is zero. -/
def patchPoll (auth : Option Nat) (now pollId : Nat) (body : PatchBody) (db : DB) :
    PatchResponse × DB :=
  match auth with
  | none => (.unauthorized, db)
  | some user =>
    match db.polls.find? (fun r => r.id == pollId) with
    | none => (.notFound, db)
    | some poll =>
      if poll.created_by != user then (.forbidden, db)
      else
        let db1 : DB := { db with polls := db.polls.map fun r =>
          if r.id == pollId then applyPatchUpdateData body now r else r }
        match body.options with
        | none => (.ok, db1)
        | some opts =>
          let db2 := opts.foldl (patchApplyOption pollId) db1
          let currentIds := (db2.options.filter (fun o => o.poll_id == pollId)).map (·.id)
          let updatedIds := (opts.filter (fun o => !o.newOption)).map (·.id)
          let toDelete := currentIds.filter (fun oid => !(updatedIds.contains oid))
          (.ok, toDelete.foldl (patchDeleteIfNoVotes pollId) db2)

/-- Outcome of the DELETE route handler, by HTTP status. -/
inductive DeleteRouteResponse where
  | unauthorized
  | notFound
  | forbidden
  | ok
deriving DecidableEq, Repr

/-- The `DELETE /api/polls/[id]` handler: authenticate, fetch the poll by id
alone, reject a non-owner with 403, then hard-delete the poll row — the
store's `ON DELETE CASCADE` rules remove the poll's options and votes with
it. -/
def deletePollRoute (auth : Option Nat) (pollId : Nat) (db : DB) :
    DeleteRouteResponse × DB :=
  match auth with
  | none => (.unauthorized, db)
  | some user =>
    match db.polls.find? (fun r => r.id == pollId) with
    | none => (.notFound, db)
    | some poll =>
      if poll.created_by != user then (.forbidden, db)
      else
        (.ok, { db with
          polls := db.polls.filter (fun r => r.id != pollId),
          options := db.options.filter (fun o => o.poll_id != pollId),
          votes := db.votes.filter (fun v => v.poll_id != pollId) })

/-- The key the `unique_user_poll_vote` constraint ranges over. -/
def votePair (v : VoteRow) : Nat × Nat := (v.user_id, v.poll_id)

theorem hit_iff_votePair (v : VoteRow) (u p : Nat) :
    (v.user_id == u && v.poll_id == p) = true ↔ votePair v = (u, p) := by
  simp [votePair, Prod.ext_iff]

theorem wfVotes_cast_vote (db : DB) (now pid oid uid : Nat) (h : wfVotes db) :
    wfVotes (cast_vote db now pid oid uid).2 := by
  obtain ⟨hpairs, hids, hbound⟩ := h
  unfold cast_vote
  split
  · exact ⟨hpairs, hids, hbound⟩
  split
  · exact ⟨hpairs, hids, hbound⟩
  split
  · exact ⟨hpairs, hids, hbound⟩
  split
  · -- update branch: the user/poll keys and the primary keys are untouched
    refine ⟨?_, ?_, ?_⟩
    · rw [List.map_map]
      have : db.votes.map ((fun v => (v.user_id, v.poll_id)) ∘ updVote uid pid oid) =
          db.votes.map (fun v => (v.user_id, v.poll_id)) := by
        apply List.map_congr_left
        intro v _
        simp only [Function.comp_apply, updVote]
        split <;> rfl
      rw [this]
      exact hpairs
    · rw [List.map_map]
      have : db.votes.map ((fun v => v.id) ∘ updVote uid pid oid) =
          db.votes.map (·.id) := by
        apply List.map_congr_left
        intro v _
        simp only [Function.comp_apply, updVote]
        split <;> rfl
      rw [this]
      exact hids
    · intro v hv
      rw [List.mem_map] at hv
      obtain ⟨w, hw, rfl⟩ := hv
      have : (updVote uid pid oid w).id = w.id := by
        simp only [updVote]
        split <;> rfl
      rw [this]
      exact hbound w hw
  · -- insert branch: the key (uid, pid) is absent and the primary key is fresh
    next hfind =>
    have hnone : ∀ v ∈ db.votes, ¬ (v.user_id == uid && v.poll_id == pid) = true :=
      List.find?_eq_none.mp hfind
    refine ⟨?_, ?_, ?_⟩
    · rw [List.map_append, List.nodup_append]
      refine ⟨hpairs, by simp, ?_⟩
      intro a ha
      rw [List.mem_map] at ha
      obtain ⟨w, hw, rfl⟩ := ha
      simp only [List.map_cons, List.map_nil, List.mem_singleton, votePair]
      intro hcontra
      exact hnone w hw ((hit_iff_votePair w uid pid).mpr (by exact hcontra))
    · rw [List.map_append, List.nodup_append]
      refine ⟨hids, by simp, ?_⟩
      intro a ha
      rw [List.mem_map] at ha
      obtain ⟨w, hw, rfl⟩ := ha
      simp only [List.map_cons, List.map_nil, List.mem_singleton]
      intro hcontra
      exact absurd (hcontra ▸ hbound w hw) (lt_irrefl _)
    · intro v hv
      rw [List.mem_append] at hv
      rcases hv with hv | hv
      · exact Nat.lt_succ_of_lt (hbound v hv)
      · rw [List.mem_singleton] at hv
        subst hv
        exact Nat.lt_succ_self _

theorem wfVotes_applyCastVotes (ops : List CastOp) (db : DB) (h : wfVotes db) :
    wfVotes (applyCastVotes ops db) := by
  induction ops generalizing db with
  | nil => exact h
  | cons op ops ih => exact ih _ (wfVotes_cast_vote db op.now op.pollId op.optionId op.userId h)

theorem nodup_users_of_pairs (l : List VoteRow) (p : Nat)
    (h : (l.map votePair).Nodup) (hall : ∀ v ∈ l, v.poll_id = p) :
    (l.map (·.user_id)).Nodup := by
  induction l with
  | nil => simp
  | cons x xs ih =>
    rw [List.map_cons, List.nodup_cons] at h ⊢
    obtain ⟨hx, hxs⟩ := h
    refine ⟨?_, ih hxs (fun v hv => hall v (List.mem_cons_of_mem _ hv))⟩
    intro hmem
    rw [List.mem_map] at hmem
    obtain ⟨w, hw, hwu⟩ := hmem
    apply hx
    rw [List.mem_map]
    refine ⟨w, hw, ?_⟩
    have h1 : w.poll_id = p := hall w (List.mem_cons_of_mem _ hw)
    have h2 : x.poll_id = p := hall x (List.mem_cons_self _ _)
    simp [votePair, hwu, h1, h2]

theorem totalVotes_eq_distinctVoters (db : DB) (h : wfVotes db) (p : Nat) :
    totalVotesDistinct db p = distinctVoters db p := by
  obtain ⟨hpairs, hids, _⟩ := h
  unfold totalVotesDistinct distinctVoters
  have hsub : List.Sublist (db.votes.filter (fun v => v.poll_id == p)) db.votes :=
    List.filter_sublist _
  have hidsl : ((db.votes.filter (fun v => v.poll_id == p)).map (·.id)).Nodup :=
    List.Nodup.sublist (List.Sublist.map _ hsub) hids
  have hpairsl : ((db.votes.filter (fun v => v.poll_id == p)).map votePair).Nodup :=
    List.Nodup.sublist (List.Sublist.map _ hsub) hpairs
  have hall : ∀ v ∈ db.votes.filter (fun v => v.poll_id == p), v.poll_id = p := by
    intro v hv
    have := List.of_mem_filter hv
    simpa using this
  have husers := nodup_users_of_pairs _ p hpairsl hall
  rw [List.Nodup.dedup hidsl, List.Nodup.dedup husers, List.length_map, List.length_map]

/-- C1: after any finite sequence of `cast_vote` calls, the votes table
still satisfies the `unique_user_poll_vote` constraint (at most one vote row
per (user, poll) pair), and for every poll the aggregate total reported by
`poll_details` (`COUNT(DISTINCT v.id)`) equals the number of distinct users
holding a vote on the poll — not the number of vote-cast calls. -/
theorem C1_vote_uniqueness (ops : List CastOp) (db : DB) (h : wfVotes db) :
    wfVotes (applyCastVotes ops db) ∧
      ∀ p, totalVotesDistinct (applyCastVotes ops db) p
            = distinctVoters (applyCastVotes ops db) p := by
  have hw := wfVotes_applyCastVotes ops db h
  exact ⟨hw, fun p => totalVotes_eq_distinctVoters _ hw p⟩

/-- A poll with two options and no votes, plus three cast attempts: user 7
votes, re-votes, and user 8 votes. -/
def c1Db : DB :=
  { polls := [{ id := 1, title := "Favorite color?", description := none, is_active := true,
                created_by := 9, created_at := 0, expires_at := none, updated_at := 0 }],
    options := [⟨2, 1, "Red", 0⟩, ⟨3, 1, "Blue", 1⟩],
    votes := [],
    nextId := 4 }

/-- The three-call sequence used to witness `C1_vote_uniqueness`. -/
def c1Ops : List CastOp := [⟨10, 1, 2, 7⟩, ⟨11, 1, 3, 7⟩, ⟨12, 1, 2, 8⟩]

/-- Witness for C1 at a concrete store and call sequence. -/
theorem C1_vote_uniqueness_witness :
    wfVotes c1Db ∧
      (wfVotes (applyCastVotes c1Ops c1Db) ∧
        ∀ p, totalVotesDistinct (applyCastVotes c1Ops c1Db) p
              = distinctVoters (applyCastVotes c1Ops c1Db) p) :=
  ⟨by decide, C1_vote_uniqueness c1Ops c1Db (by decide)⟩

/-- C4 (divergence witness): with a credential that resolves to no user,
every mutating operation of `PollService` short-circuits with zero
repository writes, but the failure code is UNKNOWN_ERROR, not
AUTHENTICATION_ERROR — `requireAuth` throws auth-utils' `AuthError`, which
is not an instance of error-handler's `AuthenticationError`, so the
dedicated catch branch never fires. -/
theorem C4_auth_short_circuit (db : DB) (now : Nat) (data : CreatePollRequest)
    (pio oio : Bool) (id : Nat) (edata : EditPollFormData) (eoio : Bool)
    (pid oid : Nat) :
    PollService.createPoll none now data pio oio db =
      (.failure "An unexpected error occurred while creating the poll" "UNKNOWN_ERROR", db) ∧
    PollService.updatePoll none now id edata eoio db =
      (.failure "An unexpected error occurred while updating the poll" "UNKNOWN_ERROR", db) ∧
    PollService.deletePoll none now id db =
      (.failure "An unexpected error occurred while deleting the poll" "UNKNOWN_ERROR", db) ∧
    PollService.castVote none now pid oid db =
      (.failure "An unexpected error occurred while casting your vote" "UNKNOWN_ERROR", db) :=
  ⟨rfl, rfl, rfl, rfl⟩

/-- C9: the `percentage` column of `poll_options_with_stats` equals
100 k / N rounded (half up) to one decimal place when the poll's total vote
count N is positive, and equals 0 when N is zero. -/
theorem C9_option_percentage (db : DB) (o : OptionRow) :
    optionPercentage db o = specOptionPercentage db o := by
  simp only [optionPercentage, specOptionPercentage, roundTo1]
  split
  · rw [round_eq]
    congr 2
    ring_nf
  · rfl

/-- Store for the C2 counterexample: user 5 already holds a vote on poll 1
for option 2. -/
def c2Db : DB :=
  { polls := [{ id := 1, title := "Favorite color?", description := none, is_active := true,
                created_by := 9, created_at := 0, expires_at := none, updated_at := 0 }],
    options := [⟨2, 1, "Red", 0⟩, ⟨3, 1, "Blue", 1⟩],
    votes := [⟨4, 1, 2, 5⟩],
    nextId := 6 }

/-- C2 fails on the `PollService.castVote` entry path: user 5 has voted for
option 2 of poll 1, and a subsequent castVote for option 3 does not succeed
and does not move the vote — it fails with ALREADY_VOTED and leaves the
store unchanged, the single vote row still referencing option 2. -/
theorem C2_counterexample :
    (c2Db.votes.filter (fun v => v.user_id == 5 && v.poll_id == 1)).map (·.option_id) = [2] ∧
    (PollService.castVote (some 5) 10 1 3 c2Db).1.errCode = some "ALREADY_VOTED" ∧
    (PollService.castVote (some 5) 10 1 3 c2Db).1.isSuccess = false ∧
    (PollService.castVote (some 5) 10 1 3 c2Db).2 = c2Db := by decide

/-- The poll row of the C3 counterexample: present but `is_active = false`. -/
def c3Row : PollRow :=
  { id := 1, title := "Favorite color?", description := none, is_active := false,
    created_by := 9, created_at := 0, expires_at := some 100, updated_at := 0 }

/-- Store for the C3 counterexample. -/
def c3Db : DB :=
  { polls := [c3Row], options := [⟨2, 1, "Red", 0⟩], votes := [], nextId := 3 }

/-- C3 fails on the code: poll 1 exists and is not effectively active
(`is_active = false`), yet `castVote` answers POLL_NOT_FOUND, not
POLL_EXPIRED — so POLL_EXPIRED does not cover every ineffective poll, and
POLL_NOT_FOUND is not reserved for absent rows. -/
theorem C3_counterexample :
    c3Db.polls.find? (fun r => r.id == 1) = some c3Row ∧
    c3Row.is_active = false ∧
    (PollService.castVote (some 5) 10 1 2 c3Db).1 = .failure "Poll not found" "POLL_NOT_FOUND" ∧
    (PollService.castVote (some 5) 10 1 2 c3Db).1.errCode ≠ some "POLL_EXPIRED" := by decide

/-- Store for the C5 counterexample. -/
def c5Db : DB := { polls := [], options := [], votes := [], nextId := 1 }

/-- The invalid create request of the C5 counterexample: a two-character
title. -/
def c5Data : CreatePollRequest := { title := "ab", description := none, options := ["A", "B"], expiresAt := none }

/-- C5 fails on the code: the input carries a (non-empty) field violation
list, yet `createPoll` reports UNKNOWN_ERROR — the thrown validation.ts
`ValidationError` is not a `PollOperationError`, so the failure is not coded
VALIDATION_ERROR and the violation list is dropped (the no-mutation half of
the claim does hold). -/
theorem C5_counterexample :
    validateCreatePollRequestErrors c5Data 50 ≠ [] ∧
    (PollService.createPoll (some 1) 50 c5Data true true c5Db).1.errCode = some "UNKNOWN_ERROR" ∧
    (PollService.createPoll (some 1) 50 c5Data true true c5Db).1.errCode ≠ some "VALIDATION_ERROR" ∧
    (PollService.createPoll (some 1) 50 c5Data true true c5Db).2 = c5Db := by decide

/-- The poll row of the C7 counterexample: soft-deleted (`is_active = false`)
and owned by user 1. -/
def c7Row : PollRow :=
  { id := 1, title := "Favorite color?", description := none, is_active := false,
    created_by := 1, created_at := 0, expires_at := none, updated_at := 0 }

/-- Store for the C7 counterexample. -/
def c7Db : DB := { polls := [c7Row], options := [], votes := [], nextId := 2 }

/-- C7 fails as a universal statement, twice over: for a poll whose row is
present but inactive, a non-owner receives POLL_NOT_FOUND from `deletePoll`,
not PERMISSION_DENIED; and for a present, active poll owned by user 9, a
non-owner's `updatePoll` receives UNKNOWN_ERROR — the unimported
`validateEditPollFormData` call throws before the ownership check — never
PERMISSION_DENIED (the store is untouched in both cases). -/
theorem C7_counterexample :
    c7Row.created_by ≠ 2 ∧
    c7Db.polls.find? (fun r => r.id == 1) = some c7Row ∧
    PollService.deletePoll (some 2) 5 1 c7Db = (.failure "Poll not found" "POLL_NOT_FOUND", c7Db) ∧
    (PollService.deletePoll (some 2) 5 1 c7Db).1.errCode ≠ some "PERMISSION_DENIED" ∧
    (PollService.updatePoll (some 2) 5 1 ⟨"Valid title", none, [⟨0, "A"⟩, ⟨0, "B"⟩]⟩ true c2Db).1.errCode
      = some "UNKNOWN_ERROR" ∧
    (PollService.updatePoll (some 2) 5 1 ⟨"Valid title", none, [⟨0, "A"⟩, ⟨0, "B"⟩]⟩ true c2Db).1.errCode
      ≠ some "PERMISSION_DENIED" ∧
    (PollService.updatePoll (some 2) 5 1 ⟨"Valid title", none, [⟨0, "A"⟩, ⟨0, "B"⟩]⟩ true c2Db).2 = c2Db := by
  decide

/-- Store for the C8 counterexample: option 2 of poll 1 carries one vote. -/
def c8Db : DB :=
  { polls := [{ id := 1, title := "Favorite color?", description := none, is_active := true,
                created_by := 1, created_at := 0, expires_at := none, updated_at := 0 }],
    options := [⟨2, 1, "Red", 0⟩, ⟨3, 1, "Blue", 1⟩],
    votes := [⟨4, 1, 2, 5⟩],
    nextId := 5 }

/-- C8 fails on the code: the owner's hard delete through
`DELETE /api/polls/[id]` removes option 2 — a PollOption row referenced by
one vote — via the store cascade, refuting the claim that no operation ever
deletes a voted option (the poll row and its votes are removed with it). -/
theorem C8_counterexample :
    0 < optionVotes c8Db 2 ∧
    2 ∈ c8Db.options.map (·.id) ∧
    (deletePollRoute (some 1) 1 c8Db).1 = .ok ∧
    ¬ 2 ∈ ((deletePollRoute (some 1) 1 c8Db).2.options.map (·.id)) := by decide

/-- C5 (amended): a `createPoll` input carrying at least one field violation
is rejected before any store mutation, but the failure is coded
UNKNOWN_ERROR — the thrown validation error never reaches the taxonomy and
its field-violation list is dropped. -/
theorem C5_amended_validation_failure (db : DB) (now u : Nat) (data : CreatePollRequest)
    (pio oio : Bool) (h : validateCreatePollRequestErrors data now ≠ []) :
    PollService.createPoll (some u) now data pio oio db =
      (.failure "An unexpected error occurred while creating the poll" "UNKNOWN_ERROR", db) := by
  have h' : (validateCreatePollRequestErrors data now).isEmpty = false := by
    cases hc : validateCreatePollRequestErrors data now with
    | nil => exact absurd hc h
    | cons a l => rfl
  simp [PollService.createPoll, requireAuth, h', catchAll]

/-- Witness for the amended C5 at a concrete invalid request. -/
theorem C5_amended_validation_failure_witness :
    validateCreatePollRequestErrors c5Data 50 ≠ [] ∧
    PollService.createPoll (some 1) 50 c5Data true true c5Db =
      (.failure "An unexpected error occurred while creating the poll" "UNKNOWN_ERROR", c5Db) :=
  ⟨by decide, C5_amended_validation_failure c5Db 50 1 c5Data true true (by decide)⟩

/-- C7 (amended): for a poll whose row is present with `is_active = true`
and a caller whose resolved user id differs from `created_by`, `deletePoll`
answers PERMISSION_DENIED and leaves the store untouched (an absent or
inactive poll instead answers POLL_NOT_FOUND, also without any write);
`updatePoll`, however, never reaches its ownership check: every call
answers UNKNOWN_ERROR with zero writes, because the module calls
`validateEditPollFormData` without ever importing it. -/
theorem C7_ownership_gate (db : DB) (now id u : Nat) (r : PollRow)
    (hfind : db.polls.find? (fun q => q.id == id && q.is_active) = some r)
    (howner : r.created_by ≠ u) :
    PollService.deletePoll (some u) now id db =
      (.failure "You do not have permission to delete this poll" "PERMISSION_DENIED", db) ∧
    ∀ (data : EditPollFormData) (oio : Bool),
      PollService.updatePoll (some u) now id data oio db =
        (.failure "An unexpected error occurred while updating the poll" "UNKNOWN_ERROR", db) := by
  have hbne : (r.created_by != u) = true := bne_iff_ne.mpr howner
  constructor
  · simp [PollService.deletePoll, requireAuth, hfind, hbne, catchAll]
  · intro data oio
    rfl

/-- Witness for the amended C7: an active poll owned by user 9, called by
user 2. -/
theorem C7_ownership_gate_witness :
    c2Db.polls.find? (fun q => q.id == 1 && q.is_active) =
      some { id := 1, title := "Favorite color?", description := none, is_active := true,
             created_by := 9, created_at := 0, expires_at := none, updated_at := 0 } ∧
    (PollService.deletePoll (some 2) 5 1 c2Db =
        (.failure "You do not have permission to delete this poll" "PERMISSION_DENIED", c2Db) ∧
      ∀ (data : EditPollFormData) (oio : Bool),
        PollService.updatePoll (some 2) 5 1 data oio c2Db =
          (.failure "An unexpected error occurred while updating the poll" "UNKNOWN_ERROR", c2Db)) :=
  ⟨by decide,
    C7_ownership_gate c2Db 5 1 2
      { id := 1, title := "Favorite color?", description := none, is_active := true,
        created_by := 9, created_at := 0, expires_at := none, updated_at := 0 }
      (by decide) (by decide)⟩

/-- C6: when the poll insert succeeds and the option insert fails,
`createPoll` deletes the just-created poll before surfacing CREATE_ERROR,
so the store's tables end exactly as they began — no poll row with zero
options is left behind. -/
theorem C6_create_rollback (db : DB) (now u : Nat) (data : CreatePollRequest)
    (hvalid : validateCreatePollRequestErrors data now = [])
    (hp : ∀ r ∈ db.polls, r.id ≠ db.nextId)
    (ho : ∀ o ∈ db.options, o.poll_id ≠ db.nextId)
    (hv : ∀ v ∈ db.votes, v.poll_id ≠ db.nextId) :
    (PollService.createPoll (some u) now data true false db).1 =
      .failure "Failed to create poll options" "CREATE_ERROR" ∧
    (PollService.createPoll (some u) now data true false db).2.polls = db.polls ∧
    (PollService.createPoll (some u) now data true false db).2.options = db.options ∧
    (PollService.createPoll (some u) now data true false db).2.votes = db.votes := by
  have h' : (validateCreatePollRequestErrors data now).isEmpty = true := by
    rw [hvalid]; rfl
  have hfp : db.polls.filter (fun r => r.id != db.nextId) = db.polls :=
    List.filter_eq_self.mpr (fun r hr => bne_iff_ne.mpr (hp r hr))
  have hfo : db.options.filter (fun o => o.poll_id != db.nextId) = db.options :=
    List.filter_eq_self.mpr (fun o hob => bne_iff_ne.mpr (ho o hob))
  have hfv : db.votes.filter (fun v => v.poll_id != db.nextId) = db.votes :=
    List.filter_eq_self.mpr (fun v hvb => bne_iff_ne.mpr (hv v hvb))
  refine ⟨?_, ?_, ?_, ?_⟩ <;>
    simp [PollService.createPoll, requireAuth, h', catchAll, PollService.deletePollCascade,
      List.filter_append, hfp, hfo, hfv]

/-- Witness for C6 at a concrete store and request. -/
theorem C6_create_rollback_witness :
    validateCreatePollRequestErrors ⟨"Favorite color?", none, ["Red", "Blue"], none⟩ 50 = [] ∧
    ((PollService.createPoll (some 1) 50 ⟨"Favorite color?", none, ["Red", "Blue"], none⟩ true false c2Db).1 =
        .failure "Failed to create poll options" "CREATE_ERROR" ∧
      (PollService.createPoll (some 1) 50 ⟨"Favorite color?", none, ["Red", "Blue"], none⟩ true false c2Db).2.polls = c2Db.polls ∧
      (PollService.createPoll (some 1) 50 ⟨"Favorite color?", none, ["Red", "Blue"], none⟩ true false c2Db).2.options = c2Db.options ∧
      (PollService.createPoll (some 1) 50 ⟨"Favorite color?", none, ["Red", "Blue"], none⟩ true false c2Db).2.votes = c2Db.votes) := by
  refine ⟨by decide, ?_⟩
  exact C6_create_rollback c2Db 50 1 ⟨"Favorite color?", none, ["Red", "Blue"], none⟩
    (by decide) (by decide) (by decide) (by decide)

theorem mem_insertByCreatedDesc (r q : PollRow) (l : List PollRow) :
    q ∈ insertByCreatedDesc r l ↔ q = r ∨ q ∈ l := by
  induction l with
  | nil => simp [insertByCreatedDesc]
  | cons x xs ih =>
    simp only [insertByCreatedDesc]
    split
    · simp
    · simp only [List.mem_cons, ih]
      tauto

theorem mem_sortByCreatedDesc (q : PollRow) (l : List PollRow) :
    q ∈ sortByCreatedDesc l ↔ q ∈ l := by
  induction l with
  | nil => simp [sortByCreatedDesc]
  | cons x xs ih =>
    simp only [sortByCreatedDesc, mem_insertByCreatedDesc, ih, List.mem_cons]

/-- C10: a successful `deletePoll` through the service keeps the poll's row
with `is_active` flipped to false and `updated_at` touched (title,
description, owner, creation time and expiry untouched), changes no option
or vote row and no other poll row, and thereafter `fetchPolls` omits the
poll and `fetchPollById` answers POLL_NOT_FOUND for it, because both reads
filter on `is_active = true`. -/
theorem C10_delete_soft (db : DB) (now u pid : Nat) (r : PollRow)
    (hfind : db.polls.find? (fun q => q.id == pid && q.is_active) = some r)
    (howner : r.created_by = u) :
    (PollService.deletePoll (some u) now pid db).1 = .success true ∧
    (PollService.deletePoll (some u) now pid db).2.options = db.options ∧
    (PollService.deletePoll (some u) now pid db).2.votes = db.votes ∧
    { r with is_active := false, updated_at := now } ∈ (PollService.deletePoll (some u) now pid db).2.polls ∧
    (∀ q ∈ (PollService.deletePoll (some u) now pid db).2.polls, q.id ≠ pid → q ∈ db.polls) ∧
    (∀ l, PollService.fetchPolls (PollService.deletePoll (some u) now pid db).2 = .success l →
      ∀ q ∈ l, q.id ≠ pid) ∧
    PollService.fetchPollById pid (PollService.deletePoll (some u) now pid db).2 =
      .failure "Poll not found" "POLL_NOT_FOUND" := by
  have hmem : r ∈ db.polls := List.mem_of_find?_eq_some hfind
  have hprop := List.find?_some hfind
  have hid : (r.id == pid) = true := by
    cases h1 : (r.id == pid) with
    | true => rfl
    | false => rw [h1] at hprop; simp at hprop
  have hbeq : (r.created_by != u) = false := by
    simp [howner]
  have hres : PollService.deletePoll (some u) now pid db =
      (.success true,
        { db with polls := db.polls.map fun q =>
            if q.id == pid then { q with is_active := false, updated_at := now } else q }) := by
    simp [PollService.deletePoll, requireAuth, hfind, hbeq]
  rw [hres]
  refine ⟨rfl, rfl, rfl, ?_, ?_, ?_, ?_⟩
  · show _ ∈ List.map _ db.polls
    rw [List.mem_map]
    exact ⟨r, hmem, by simp [hid]⟩
  · intro q hq hqid
    rw [List.mem_map] at hq
    obtain ⟨q0, hq0, rfl⟩ := hq
    by_cases h0 : (q0.id == pid) = true
    · exact absurd (by simp [h0] at hqid ⊢; exact beq_iff_eq.mp h0) (by simpa [h0] using hqid)
    · simpa [h0] using hq0
  · intro l hl q hql hqid
    have hl' : l = sortByCreatedDesc (((db.polls.map fun q =>
        if q.id == pid then { q with is_active := false, updated_at := now } else q)).filter (·.is_active)) := by
      have := hl
      simp only [PollService.fetchPolls, ApiResponse.success.injEq] at this
      exact this.symm
    rw [hl', mem_sortByCreatedDesc, List.mem_filter] at hql
    obtain ⟨hqmem, hqact⟩ := hql
    rw [List.mem_map] at hqmem
    obtain ⟨q0, hq0, rfl⟩ := hqmem
    by_cases h0 : (q0.id == pid) = true
    · simp [h0] at hqact
    · exact absurd (by simpa [h0] using hqid) (by simpa using h0)
  · have hnone : ((db.polls.map fun q =>
        if q.id == pid then { q with is_active := false, updated_at := now } else q)).find?
          (fun q => q.id == pid && q.is_active) = none := by
      rw [List.find?_eq_none]
      intro q hq
      rw [List.mem_map] at hq
      obtain ⟨q0, hq0, rfl⟩ := hq
      by_cases h0 : (q0.id == pid) = true
      · simp [h0]
      · simp [h0]
    simp only [PollService.fetchPollById]
    rw [hnone]

/-- The poll and store used to witness `C10_delete_soft`. -/
def c10Row : PollRow :=
  { id := 1, title := "Favorite color?", description := none, is_active := true,
    created_by := 1, created_at := 0, expires_at := none, updated_at := 0 }

/-- Concrete store for the C10 witness. -/
def c10Db : DB :=
  { polls := [c10Row], options := [⟨2, 1, "Red", 0⟩], votes := [⟨3, 1, 2, 7⟩], nextId := 4 }

/-- Witness for C10 at a concrete store. -/
theorem C10_delete_soft_witness :
    c10Db.polls.find? (fun q => q.id == 1 && q.is_active) = some c10Row ∧
    c10Row.created_by = 1 ∧
    (PollService.deletePoll (some 1) 9 1 c10Db).1 = .success true :=
  ⟨by decide, rfl, (C10_delete_soft c10Db 9 1 1 c10Row (by decide) rfl).1⟩

/-- C3 (amended): with an authenticated caller, `castVote` answers
POLL_NOT_FOUND exactly when no row with the given id is both present and
`is_active = true` — when such a row exists the result is never
POLL_NOT_FOUND, and when none does it always is (so an inactive row is
reported as not found, not as expired) — and for a present active row it
answers POLL_EXPIRED exactly when `expires_at` is set and strictly before
now; an expiry equal to the current instant does not trigger POLL_EXPIRED. -/
theorem C3_expiry_gate (db : DB) (now pid oid u : Nat) :
    (db.polls.find? (fun r => r.id == pid && r.is_active) = none →
      (PollService.castVote (some u) now pid oid db).1 =
        .failure "Poll not found" "POLL_NOT_FOUND") ∧
    (∀ r, db.polls.find? (fun r => r.id == pid && r.is_active) = some r →
      (((PollService.castVote (some u) now pid oid db).1 =
          .failure "This poll has expired" "POLL_EXPIRED" ↔
        ∃ t, r.expires_at = some t ∧ t < now) ∧
        (PollService.castVote (some u) now pid oid db).1 ≠
          .failure "Poll not found" "POLL_NOT_FOUND")) := by
  constructor
  · intro hfind
    simp [PollService.castVote, requireAuth, hfind, catchAll]
  · intro r hfind
    cases he : r.expires_at with
    | some t =>
      by_cases hlt : t < now
      · have hres : (PollService.castVote (some u) now pid oid db).1 =
            .failure "This poll has expired" "POLL_EXPIRED" := by
          simp [PollService.castVote, requireAuth, hfind, he, hlt, catchAll]
        refine ⟨iff_of_true hres ⟨t, rfl, hlt⟩, ?_⟩
        rw [hres]
        simp
      · have hres : (PollService.castVote (some u) now pid oid db).1 ≠
            .failure "This poll has expired" "POLL_EXPIRED" := by
          simp only [PollService.castVote, requireAuth, hfind, he, decide_eq_true_eq]
          rw [if_neg (by simpa using hlt)]
          split
          · simp [catchAll]
          · split
            · simp [catchAll]
            · split
              · simp [catchAll]
              · simp [catchAll]
        have hnnf : (PollService.castVote (some u) now pid oid db).1 ≠
            .failure "Poll not found" "POLL_NOT_FOUND" := by
          simp only [PollService.castVote, requireAuth, hfind, he, decide_eq_true_eq]
          rw [if_neg (by simpa using hlt)]
          split
          · simp [catchAll]
          · split
            · simp [catchAll]
            · split
              · simp [catchAll]
              · simp [catchAll]
        refine ⟨iff_of_false hres ?_, hnnf⟩
        rintro ⟨t', ht', hlt'⟩
        cases ht'
        exact hlt hlt'
    | none =>
      have hres : (PollService.castVote (some u) now pid oid db).1 ≠
          .failure "This poll has expired" "POLL_EXPIRED" := by
        simp only [PollService.castVote, requireAuth, hfind, he, Bool.false_eq_true, if_false]
        split
        · simp [catchAll]
        · split
          · simp [catchAll]
          · split
            · simp [catchAll]
            · simp [catchAll]
      have hnnf : (PollService.castVote (some u) now pid oid db).1 ≠
          .failure "Poll not found" "POLL_NOT_FOUND" := by
        simp only [PollService.castVote, requireAuth, hfind, he, Bool.false_eq_true, if_false]
        split
        · simp [catchAll]
        · split
          · simp [catchAll]
          · split
            · simp [catchAll]
            · simp [catchAll]
      refine ⟨iff_of_false hres ?_, hnnf⟩
      rintro ⟨t', ht', _⟩
      cases ht'

/-- An active poll whose expiry lies in the past, for the C3 witness. -/
def c3wRow : PollRow :=
  { id := 1, title := "Favorite color?", description := none, is_active := true,
    created_by := 9, created_at := 0, expires_at := some 5, updated_at := 0 }

/-- Concrete store for the C3 witness. -/
def c3wDb : DB :=
  { polls := [c3wRow], options := [⟨2, 1, "Red", 0⟩], votes := [], nextId := 3 }

/-- Witness for the amended C3 at a concrete expired poll. -/
theorem C3_expiry_gate_witness :
    c3wDb.polls.find? (fun r => r.id == 1 && r.is_active) = some c3wRow ∧
    (((PollService.castVote (some 7) 10 1 2 c3wDb).1 =
          .failure "This poll has expired" "POLL_EXPIRED" ↔
        ∃ t, c3wRow.expires_at = some t ∧ t < 10) ∧
      (PollService.castVote (some 7) 10 1 2 c3wDb).1 ≠
        .failure "Poll not found" "POLL_NOT_FOUND") :=
  ⟨by decide, (C3_expiry_gate c3wDb 10 1 2 7).2 c3wRow (by decide)⟩

theorem countP_hit_le_one (l : List VoteRow) (u p : Nat)
    (h : (l.map fun v => (v.user_id, v.poll_id)).Nodup) :
    l.countP (fun v => v.user_id == u && v.poll_id == p) ≤ 1 := by
  induction l with
  | nil => simp
  | cons x xs ih =>
    rw [List.map_cons, List.nodup_cons] at h
    obtain ⟨hx, hxs⟩ := h
    rw [List.countP_cons]
    cases hhit : (x.user_id == u && x.poll_id == p) with
    | false =>
      have := ih hxs
      rw [if_neg Bool.false_ne_true]
      omega
    | true =>
      have hz : xs.countP (fun v => v.user_id == u && v.poll_id == p) = 0 := by
        rw [List.countP_eq_zero]
        intro v hv hvhit
        apply hx
        rw [List.mem_map]
        refine ⟨v, hv, ?_⟩
        have h1 := (hit_iff_votePair v u p).mp hvhit
        have h2 := (hit_iff_votePair x u p).mp hhit
        simpa [votePair] using h1.trans h2.symm
      rw [hz, if_pos rfl]

theorem countP_hit_pos (l : List VoteRow) (u p : Nat) (va : VoteRow)
    (hmem : va ∈ l) (hva : (va.user_id == u && va.poll_id == p) = true) :
    1 ≤ l.countP (fun v => v.user_id == u && v.poll_id == p) :=
  List.countP_pos_iff.mpr ⟨va, hmem, hva⟩

theorem filter_hit_singleton (l : List VoteRow) (q : VoteRow → Bool) (va : VoteRow)
    (hcount : l.countP q = 1) (hmem : va ∈ l) (hva : q va = true) :
    l.filter q = [va] := by
  induction l with
  | nil => cases hmem
  | cons x xs ih =>
    rw [List.countP_cons] at hcount
    cases hx : q x with
    | true =>
      rw [hx, if_pos rfl] at hcount
      have hz : xs.countP q = 0 := by omega
      have hfe : xs.filter q = [] := by
        have := List.countP_eq_length_filter q xs
        rw [hz] at this
        exact List.eq_nil_of_length_eq_zero this.symm
      have hva' : va = x := by
        rcases List.mem_cons.mp hmem with h | h
        · exact h
        · exfalso
          have := List.countP_pos_iff.mpr ⟨va, h, hva⟩
          omega
      rw [List.filter_cons_of_pos hx, hfe, hva']
    | false =>
      have hmem' : va ∈ xs := by
        rcases List.mem_cons.mp hmem with h | h
        · exact absurd (h ▸ hva) (by simp [hx])
        · exact h
      rw [hx, if_neg Bool.false_ne_true] at hcount
      rw [List.filter_cons_of_neg (by simp [hx])]
      exact ih (by omega) hmem'

theorem updVote_pred (u p B : Nat) (v : VoteRow) :
    ((updVote u p B v).user_id == u && (updVote u p B v).poll_id == p)
      = (v.user_id == u && v.poll_id == p) := by
  unfold updVote
  split <;> rfl

theorem filter_hit_map_update (l : List VoteRow) (u p B : Nat) :
    ((l.map (updVote u p B)).filter (fun v => v.user_id == u && v.poll_id == p))
      = (l.filter (fun v => v.user_id == u && v.poll_id == p)).map (updVote u p B) := by
  induction l with
  | nil => rfl
  | cons x xs ih =>
    rw [List.map_cons, List.filter_cons, List.filter_cons, updVote_pred]
    cases hx : (x.user_id == u && x.poll_id == p) with
    | true => rw [if_pos rfl, if_pos rfl, List.map_cons, ih]
    | false => rw [if_neg Bool.false_ne_true, if_neg Bool.false_ne_true, ih]

theorem countP_poll_map_update (l : List VoteRow) (u p B pid : Nat) :
    (l.map (updVote u p B)).countP (fun v => v.poll_id == pid)
      = l.countP (fun v => v.poll_id == pid) := by
  rw [List.countP_map]
  apply List.countP_congr
  intro v _
  simp only [Function.comp_apply, updVote]
  split <;> exact Iff.rfl

theorem countP_optB_map_update (l : List VoteRow) (u p B : Nat)
    (hB : ∀ v ∈ l, (v.user_id == u && v.poll_id == p) = true → v.option_id ≠ B) :
    (l.map (updVote u p B)).countP (fun v => v.option_id == B)
      = l.countP (fun v => v.option_id == B)
        + l.countP (fun v => v.user_id == u && v.poll_id == p) := by
  induction l with
  | nil => rfl
  | cons x xs ih =>
    have ih' := ih (fun v hv => hB v (List.mem_cons_of_mem _ hv))
    rw [List.map_cons, List.countP_cons, List.countP_cons, List.countP_cons, ih']
    cases hx : (x.user_id == u && x.poll_id == p) with
    | true =>
      have hup : updVote u p B x = { x with option_id := B } := by
        unfold updVote
        rw [if_pos hx]
      have hxB : (x.option_id == B) = false :=
        beq_eq_false_iff_ne.mpr (hB x (List.mem_cons_self _ _) hx)
      have hself : (({ x with option_id := B } : VoteRow).option_id == B) = true := by
        show (B == B) = true
        exact beq_self_eq_true B
      rw [hup, hself, hxB, if_pos rfl, if_neg Bool.false_ne_true]
      omega
    | false =>
      have hup : updVote u p B x = x := by
        unfold updVote
        rw [hx]
        exact if_neg Bool.false_ne_true
      rw [hup, if_neg Bool.false_ne_true]
      omega

theorem countP_optA_map_update (l : List VoteRow) (u p A B : Nat) (hAB : A ≠ B)
    (hA : ∀ v ∈ l, (v.user_id == u && v.poll_id == p) = true → v.option_id = A) :
    (l.map (updVote u p B)).countP (fun v => v.option_id == A)
      + l.countP (fun v => v.user_id == u && v.poll_id == p)
      = l.countP (fun v => v.option_id == A) := by
  induction l with
  | nil => rfl
  | cons x xs ih =>
    have ih' := ih (fun v hv => hA v (List.mem_cons_of_mem _ hv))
    rw [List.map_cons, List.countP_cons, List.countP_cons, List.countP_cons]
    cases hx : (x.user_id == u && x.poll_id == p) with
    | true =>
      have hup : updVote u p B x = { x with option_id := B } := by
        unfold updVote
        rw [if_pos hx]
      have hxA : (x.option_id == A) = true := beq_iff_eq.mpr (hA x (List.mem_cons_self _ _) hx)
      have hBA : (({ x with option_id := B } : VoteRow).option_id == A) = false := by
        show (B == A) = false
        exact beq_eq_false_iff_ne.mpr (fun h => hAB h.symm)
      rw [hup, hBA, hxA, if_pos rfl, if_neg Bool.false_ne_true]
      omega
    | false =>
      have hup : updVote u p B x = x := by
        unfold updVote
        rw [hx]
        exact if_neg Bool.false_ne_true
      rw [hup, if_neg Bool.false_ne_true]
      omega

/-- C2 (amended): through the repository's `cast_vote` upsert (the path the
vote API route invokes), a user who already holds a vote for option A on an
active poll and casts again for option B ends with exactly one vote row for
the pair, now referencing B; the poll's total vote count is unchanged,
option A's count drops by one and option B's count rises by one.  The
`PollService.castVote` entry path instead rejects the re-vote with
ALREADY_VOTED and changes nothing (see the counterexample). -/
theorem C2_revote_upsert (db : DB) (now p A B u : Nat) (va : VoteRow)
    (hpairs : (db.votes.map fun v => (v.user_id, v.poll_id)).Nodup)
    (hfound : db.votes.find? (fun v => v.user_id == u && v.poll_id == p) = some va)
    (hA : va.option_id = A)
    (hAB : A ≠ B)
    (hactive : is_poll_active db now p = some true)
    (hopt : (db.options.find? (fun o => o.id == B)).isSome = true) :
    ((cast_vote db now p B u).2.votes.filter
        (fun v => v.user_id == u && v.poll_id == p)).map (·.option_id) = [B] ∧
    pollTotalVotes (cast_vote db now p B u).2 p = pollTotalVotes db p ∧
    optionVotes (cast_vote db now p B u).2 A + 1 = optionVotes db A ∧
    optionVotes (cast_vote db now p B u).2 B = optionVotes db B + 1 := by
  have h1 : (is_poll_active db now p == some false) = false := by
    rw [hactive]
    rfl
  have h2 : (db.polls.find? (fun r => r.id == p)).isNone = false := by
    unfold is_poll_active at hactive
    cases hf : db.polls.find? (fun r => r.id == p) with
    | none => rw [hf] at hactive; cases hactive
    | some r => rfl
  have h3 : (db.options.find? (fun o => o.id == B)).isNone = false := by
    cases ho : db.options.find? (fun o => o.id == B) with
    | none => rw [ho] at hopt; cases hopt
    | some o => rfl
  have hdb : (cast_vote db now p B u).2 = { db with votes := db.votes.map (updVote u p B) } := by
    unfold cast_vote
    rw [h1, if_neg Bool.false_ne_true, h2, if_neg Bool.false_ne_true, h3,
      if_neg Bool.false_ne_true, hfound]
  have hmem := List.mem_of_find?_eq_some hfound
  have hhitva := List.find?_some hfound
  have hcount : db.votes.countP (fun v => v.user_id == u && v.poll_id == p) = 1 :=
    le_antisymm (countP_hit_le_one db.votes u p hpairs) (countP_hit_pos db.votes u p va hmem hhitva)
  have honly : ∀ v ∈ db.votes, (v.user_id == u && v.poll_id == p) = true → v = va := by
    intro v hv hhit
    have hvin : v ∈ db.votes.filter (fun v => v.user_id == u && v.poll_id == p) :=
      List.mem_filter.mpr ⟨hv, hhit⟩
    rw [filter_hit_singleton db.votes _ va hcount hmem hhitva] at hvin
    simpa using hvin
  rw [hdb]
  dsimp only
  refine ⟨?_, ?_, ?_, ?_⟩
  · rw [filter_hit_map_update, filter_hit_singleton db.votes _ va hcount hmem hhitva]
    have hup : updVote u p B va = { va with option_id := B } := by
      unfold updVote
      rw [if_pos hhitva]
    simp [hup]
  · unfold pollTotalVotes
    dsimp only
    rw [← List.countP_eq_length_filter, ← List.countP_eq_length_filter, countP_poll_map_update]
  · unfold optionVotes
    dsimp only
    rw [← List.countP_eq_length_filter, ← List.countP_eq_length_filter]
    have hAx : ∀ v ∈ db.votes, (v.user_id == u && v.poll_id == p) = true → v.option_id = A :=
      fun v hv hh => by rw [honly v hv hh]; exact hA
    have hkey := countP_optA_map_update db.votes u p A B hAB hAx
    rw [hcount] at hkey
    omega
  · unfold optionVotes
    dsimp only
    rw [← List.countP_eq_length_filter, ← List.countP_eq_length_filter]
    have hBx : ∀ v ∈ db.votes, (v.user_id == u && v.poll_id == p) = true → v.option_id ≠ B :=
      fun v hv hh => by rw [honly v hv hh, hA]; exact hAB
    have hkey := countP_optB_map_update db.votes u p B hBx
    rw [hcount] at hkey
    omega

/-- Witness for the amended C2 at a concrete store: user 5 moves their vote
on poll 1 from option 2 to option 3. -/
theorem C2_revote_upsert_witness :
    (c2Db.votes.map fun v => (v.user_id, v.poll_id)).Nodup ∧
    c2Db.votes.find? (fun v => v.user_id == 5 && v.poll_id == 1) = some ⟨4, 1, 2, 5⟩ ∧
    is_poll_active c2Db 10 1 = some true ∧
    (((cast_vote c2Db 10 1 3 5).2.votes.filter
        (fun v => v.user_id == 5 && v.poll_id == 1)).map (·.option_id) = [3] ∧
      pollTotalVotes (cast_vote c2Db 10 1 3 5).2 1 = pollTotalVotes c2Db 1 ∧
      optionVotes (cast_vote c2Db 10 1 3 5).2 2 + 1 = optionVotes c2Db 2 ∧
      optionVotes (cast_vote c2Db 10 1 3 5).2 3 = optionVotes c2Db 3 + 1) :=
  ⟨by decide, by decide, by decide,
    C2_revote_upsert c2Db 10 1 2 3 5 ⟨4, 1, 2, 5⟩ (by decide) (by decide) rfl
      (by decide) (by decide) (by decide)⟩

theorem patchApplyOption_votes (pollId : Nat) (db : DB) (o : PatchOption) :
    (patchApplyOption pollId db o).votes = db.votes := by
  unfold patchApplyOption
  split <;> rfl

theorem patchApplyOption_mem (pollId : Nat) (db : DB) (o : PatchOption) (oid : Nat)
    (h : oid ∈ db.options.map (·.id)) :
    oid ∈ (patchApplyOption pollId db o).options.map (·.id) := by
  unfold patchApplyOption
  split
  · dsimp only
    rw [List.map_append]
    exact List.mem_append_left _ h
  · dsimp only
    rw [List.map_map]
    have heq : db.options.map ((fun r => r.id) ∘ fun r =>
        if r.id == o.id && r.poll_id == pollId then { r with text := o.text } else r) =
        db.options.map (·.id) := by
      apply List.map_congr_left
      intro r _
      simp only [Function.comp_apply]
      split <;> rfl
    rw [heq]
    exact h

theorem patchApplyOptions_votes (pollId : Nat) (opts : List PatchOption) (db : DB) :
    (opts.foldl (patchApplyOption pollId) db).votes = db.votes := by
  induction opts generalizing db with
  | nil => rfl
  | cons o os ih => rw [List.foldl_cons, ih, patchApplyOption_votes]

theorem patchApplyOptions_mem (pollId : Nat) (opts : List PatchOption) (db : DB) (oid : Nat)
    (h : oid ∈ db.options.map (·.id)) :
    oid ∈ (opts.foldl (patchApplyOption pollId) db).options.map (·.id) := by
  induction opts generalizing db with
  | nil => exact h
  | cons o os ih => exact ih _ (patchApplyOption_mem pollId db o oid h)

theorem patchDeleteIfNoVotes_preserves (pollId : Nat) (db : DB) (d oid : Nat)
    (hv : 0 < (db.votes.filter (fun v => v.option_id == oid)).length)
    (hm : oid ∈ db.options.map (·.id)) :
    (patchDeleteIfNoVotes pollId db d).votes.filter (fun v => v.option_id == oid)
        = db.votes.filter (fun v => v.option_id == oid) ∧
      oid ∈ (patchDeleteIfNoVotes pollId db d).options.map (·.id) := by
  unfold patchDeleteIfNoVotes
  by_cases hg : ((db.votes.filter (fun v => v.option_id == d)).length == 0) = true
  · have hdo : d ≠ oid := by
      intro hcontra
      subst hcontra
      have hz : (db.votes.filter (fun v => v.option_id == d)).length = 0 := beq_iff_eq.mp hg
      omega
    rw [if_pos hg]
    dsimp only
    constructor
    · rw [List.filter_filter]
      apply List.filter_congr
      intro v _
      cases hvo : (v.option_id == oid) with
      | false => rfl
      | true =>
        have : v.option_id = oid := beq_iff_eq.mp hvo
        have : (v.option_id != d) = true := bne_iff_ne.mpr (by rw [this]; exact fun hc => hdo hc.symm)
        rw [this]
        rfl
    · rw [List.mem_map] at hm
      obtain ⟨r, hr, hrid⟩ := hm
      rw [List.mem_map]
      refine ⟨r, ?_, hrid⟩
      rw [List.mem_filter]
      refine ⟨hr, ?_⟩
      have : (r.id == d) = false := beq_eq_false_iff_ne.mpr (by rw [hrid]; exact fun hc => hdo hc.symm)
      rw [this]
      rfl
  · rw [if_neg hg]
    exact ⟨rfl, hm⟩

theorem patchDeletePhase_preserves (pollId : Nat) (toDelete : List Nat) (db : DB) (oid : Nat)
    (hv : 0 < (db.votes.filter (fun v => v.option_id == oid)).length)
    (hm : oid ∈ db.options.map (·.id)) :
    0 < ((toDelete.foldl (patchDeleteIfNoVotes pollId) db).votes.filter
          (fun v => v.option_id == oid)).length ∧
      oid ∈ (toDelete.foldl (patchDeleteIfNoVotes pollId) db).options.map (·.id) := by
  induction toDelete generalizing db with
  | nil => exact ⟨hv, hm⟩
  | cons d ds ih =>
    rw [List.foldl_cons]
    obtain ⟨h1, h2⟩ := patchDeleteIfNoVotes_preserves pollId db d oid hv hm
    exact ih _ (by rw [h1]; exact hv) h2

/-- C8 (amended): among the option-removal paths that leave the poll in
place, no voted option is ever deleted — the `PATCH /api/polls/[id]` removal
loop checks the option's vote count and deletes only at count zero, so a
voted option and its votes survive any PATCH; and `PollService.updatePoll`
performs no store writes at all (every call fails with UNKNOWN_ERROR on its
unimported `validateEditPollFormData` call).  Only the hard poll delete
removes voted options, together with the poll row itself and all of its
votes (see the counterexample). -/
theorem C8_patch_vote_safety (auth : Option Nat) (now pollId : Nat) (body : PatchBody)
    (db : DB) (oid : Nat)
    (hv : 0 < optionVotes db oid)
    (hm : oid ∈ db.options.map (·.id)) :
    (oid ∈ (patchPoll auth now pollId body db).2.options.map (·.id) ∧
      0 < optionVotes (patchPoll auth now pollId body db).2 oid) ∧
    ∀ (data : EditPollFormData) (oio : Bool),
      PollService.updatePoll auth now pollId data oio db =
        (.failure "An unexpected error occurred while updating the poll" "UNKNOWN_ERROR", db) := by
  refine ⟨?_, ?_⟩
  case refine_2 =>
    intro data oio
    cases auth <;> rfl
  unfold optionVotes at hv ⊢
  unfold patchPoll
  cases auth with
  | none => exact ⟨hm, hv⟩
  | some u =>
    cases hf : db.polls.find? (fun r => r.id == pollId) with
    | none => exact ⟨hm, hv⟩
    | some poll =>
      dsimp only
      cases hb : (poll.created_by != u) with
      | true =>
        rw [if_pos rfl]
        exact ⟨hm, hv⟩
      | false =>
        rw [if_neg Bool.false_ne_true]
        cases hopts : body.options with
        | none =>
          exact ⟨hm, hv⟩
        | some opts =>
          dsimp only
          have hvotes2 : (opts.foldl (patchApplyOption pollId)
              { db with polls := db.polls.map fun r =>
                  if r.id == pollId then applyPatchUpdateData body now r else r }).votes
              = db.votes := by
            rw [patchApplyOptions_votes]
          have hmem2 : oid ∈ (opts.foldl (patchApplyOption pollId)
              { db with polls := db.polls.map fun r =>
                  if r.id == pollId then applyPatchUpdateData body now r else r }).options.map (·.id) :=
            patchApplyOptions_mem _ _ _ _ hm
          have hfin := patchDeletePhase_preserves pollId
            ((((opts.foldl (patchApplyOption pollId)
                { db with polls := db.polls.map fun r =>
                    if r.id == pollId then applyPatchUpdateData body now r else r }).options.filter
                  (fun o => o.poll_id == pollId)).map (·.id)).filter
              (fun x => !(((opts.filter (fun o => !o.newOption)).map (·.id)).contains x)))
            _ oid (by rw [hvotes2]; exact hv) hmem2
          exact ⟨hfin.2, hfin.1⟩

/-- The PATCH body of the C8 witness: keep option 3, so option 2 lands in
the removal set even though it carries a vote. -/
def c8Body : PatchBody :=
  { isActive := none, title := none, description := none, expiresAt := none,
    options := some [⟨false, 3, "NewBlue"⟩] }

/-- Witness for the amended C8 at a concrete PATCH call. -/
theorem C8_patch_vote_safety_witness :
    0 < optionVotes c8Db 2 ∧
    2 ∈ c8Db.options.map (·.id) ∧
    ((2 ∈ (patchPoll (some 1) 10 1 c8Body c8Db).2.options.map (·.id) ∧
        0 < optionVotes (patchPoll (some 1) 10 1 c8Body c8Db).2 2) ∧
      ∀ (data : EditPollFormData) (oio : Bool),
        PollService.updatePoll (some 1) 10 1 data oio c8Db =
          (.failure "An unexpected error occurred while updating the poll" "UNKNOWN_ERROR", c8Db)) :=
  ⟨by decide, by decide, C8_patch_vote_safety (some 1) 10 1 c8Body c8Db 2 (by decide) (by decide)⟩
